import Mathlib

/-!
Shallow embedding of the matching engine of the blood-donation management
service (`services/matching_service.py`, together with the read operations
of `repositories/donor_repository.py` and
`repositories/blood_request_repository.py` that it calls), and theorems
checking the specification's claims about it.

Conventions of the embedding:
* The two SQLite-backed repositories are modelled as pure reads over an
  in-memory `Store` (a list of donors and a list of requests); the SQL
  filters `blood_group = ?` (exact) and `LOWER(city) = LOWER(?)`
  (case-insensitive) become list filters.
* Python floats carry only the values 0, 1, 4, 7, 10, 20, 30, 40 and sums
  of these capped at 100, all exactly representable integers, so scores
  are modelled as `ℤ`; the one non-integral float of the service, the
  statistics match rate, is modelled as `ℚ`.
* Python's `str.lower()` and SQL `LOWER` are modelled by `str_lower`,
  ASCII lowercasing applied to the string's characters.
* A raised `MatchingServiceError` is modelled as `Except.error` carrying
  the message string; the re-wrapping performed by the Python
  `except Exception` handlers is reproduced by `wrap_unexpected` and the
  message prefixes below.
* `list.sort(key=..., reverse=True)` is a stable sort placing larger keys
  first; it is modelled by `List.insertionSort` with the (total,
  transitive) "key greater or equal" relation, which is likewise stable.
* Wall-clock fields (`created_at`, `last_updated`) are not modelled: no
  claim mentions them and they do not influence matching.
-/

namespace BloodDonation

deriving instance DecidableEq for Except

/-- ASCII lowercase of one character. -/
def lower_char (c : Char) : Char :=
  if 'A' ≤ c ∧ c ≤ 'Z' then Char.ofNat (c.toNat + 32) else c

/-- ASCII lowercase of a string: the model of Python's `str.lower()` and
SQL's `LOWER` as both are applied to the city fields. -/
def str_lower (s : String) : String :=
  ⟨s.data.map lower_char⟩

/-- Donor record (`models/donor.py`): id, name, blood group, city, contact
number, optional email. -/
structure Donor where
  id : Int
  name : String
  blood_group : String
  city : String
  contact_number : String
  email : Option String
deriving Repr, DecidableEq

/-- Blood request record (`models/blood_request.py`): id, patient name,
blood group, city, urgency, optional hospital name, contact number,
status. -/
structure BloodRequest where
  id : Int
  patient_name : String
  blood_group : String
  city : String
  urgency : String
  hospital_name : Option String
  contact_number : String
  status : String
deriving Repr, DecidableEq

/-- The persistent state the two repositories read from. -/
structure Store where
  donors : List Donor
  requests : List BloodRequest
deriving Repr, DecidableEq

/-- DonorRepository.search_by_blood_group: donors whose blood group equals
`bg` exactly (SQL `blood_group = ?`). -/
def search_by_blood_group (s : Store) (bg : String) : List Donor :=
  s.donors.filter (fun d => d.blood_group == bg)

/-- DonorRepository.search_by_blood_group_and_city: exact blood-group
filter and case-insensitive city filter (SQL `LOWER(city) = LOWER(?)`). -/
def search_by_blood_group_and_city (s : Store) (bg city : String) : List Donor :=
  s.donors.filter (fun d => d.blood_group == bg && str_lower d.city == str_lower city)

/-- DonorRepository.get_by_id. -/
def donor_get_by_id (s : Store) (i : Int) : Option Donor :=
  s.donors.find? (fun d => d.id == i)

/-- BloodRequestRepository.get_by_id. -/
def request_get_by_id (s : Store) (i : Int) : Option BloodRequest :=
  s.requests.find? (fun r => r.id == i)

/-- BloodRequestRepository.get_all with no filters. -/
def request_get_all (s : Store) : List BloodRequest :=
  s.requests

/-- BloodRequestRepository.get_active_requests: get_all with the filter
`status = 'Active'`. -/
def get_active_requests (s : Store) : List BloodRequest :=
  s.requests.filter (fun r => r.status == "Active")

/-- BloodRequestRepository.get_requests_by_blood_group_and_city: exact
blood-group filter, case-insensitive city filter. -/
def get_requests_by_blood_group_and_city (s : Store) (bg city : String) : List BloodRequest :=
  s.requests.filter (fun r => r.blood_group == bg && str_lower r.city == str_lower city)

/-- MatchingService._build_compatibility_map as a partial lookup: the
dictionary mapping each of the 8 recipient groups to its set of
compatible donor groups (kept in the source's literal order). -/
def build_compatibility_map (g : String) : Option (List String) :=
  if g == "A+" then some ["A+", "A-", "O+", "O-"]
  else if g == "A-" then some ["A-", "O-"]
  else if g == "B+" then some ["B+", "B-", "O+", "O-"]
  else if g == "B-" then some ["B-", "O-"]
  else if g == "AB+" then some ["A+", "A-", "B+", "B-", "AB+", "AB-", "O+", "O-"]
  else if g == "AB-" then some ["A-", "B-", "AB-", "O-"]
  else if g == "O+" then some ["O+", "O-"]
  else if g == "O-" then some ["O-"]
  else none

/-- The 8 canonical blood groups, in the iteration order of the source's
compatibility dictionary. -/
def canonical_blood_groups : List String :=
  ["A+", "A-", "B+", "B-", "AB+", "AB-", "O+", "O-"]

/-- MatchingService.get_compatible_blood_groups: table lookup, raising
`MatchingServiceError` for a non-canonical group.  The inner
`Invalid blood group` error is re-wrapped by the method's own generic
handler, hence the composed message. -/
def get_compatible_blood_groups (g : String) : Except String (List String) :=
  match build_compatibility_map g with
  | some l => .ok l
  | none => .error ("Failed to get compatible blood groups: Invalid blood group: " ++ g)

/-- MatchingService.is_blood_compatible: membership of the donor group in
the recipient's compatible set; errors are re-wrapped with the method's
message prefix. -/
def is_blood_compatible (donor_bg recipient_bg : String) : Except String Bool :=
  match get_compatible_blood_groups recipient_bg with
  | .ok groups => .ok (groups.contains donor_bg)
  | .error e => .error ("Failed to check blood compatibility: " ++ e)

/-- Urgency bonus dictionary of MatchingService._calculate_match_score
(`.get(urgency, 0.0)`). -/
def urgency_bonus (u : String) : ℤ :=
  if u == "Critical" then 10
  else if u == "High" then 7
  else if u == "Medium" then 4
  else if u == "Low" then 1
  else 0

/-- MatchingService._calculate_match_score: 40 for compatibility, 20 for
exact blood-group equality, 30 for case-insensitive city equality, plus
the urgency bonus, capped at 100.  The `city_exact_match` parameter is
accepted but unused, as in the source. -/
def calculate_match_score (d : Donor) (r : BloodRequest) (city_exact_match : Bool) :
    Except String ℤ :=
  match is_blood_compatible d.blood_group r.blood_group with
  | .error e => .error e
  | .ok compatible =>
    let base : ℤ := if compatible then 40 else 0
    let exact : ℤ := if d.blood_group == r.blood_group then 20 else 0
    let cityPts : ℤ := if str_lower d.city == str_lower r.city then 30 else 0
    .ok (min (base + exact + cityPts + urgency_bonus r.urgency) 100)

/-- MatchingService._get_urgency_priority: Critical 4, High 3, Medium 2,
Low 1, anything else 0. -/
def get_urgency_priority (u : String) : Int :=
  if u == "Critical" then 4
  else if u == "High" then 3
  else if u == "Medium" then 2
  else if u == "Low" then 1
  else 0

/-- Match record produced for a donor against a request
(MatchingService._create_match_info).  The `match_details` sub-dictionary
of the source only copies fields already present here and in `donor`. -/
structure MatchInfo where
  donor : Donor
  match_score : ℤ
  blood_compatible : Bool
  city_match : Bool
  exact_blood_match : Bool
deriving Repr, DecidableEq

/-- MatchingService._create_match_info. -/
def create_match_info (d : Donor) (r : BloodRequest) (city_exact_match : Bool) :
    Except String MatchInfo :=
  match calculate_match_score d r city_exact_match with
  | .error e => .error e
  | .ok score =>
    match is_blood_compatible d.blood_group r.blood_group with
    | .error e => .error e
    | .ok compatible =>
      .ok { donor := d
            match_score := score
            blood_compatible := compatible
            city_match := str_lower d.city == str_lower r.city
            exact_blood_match := d.blood_group == r.blood_group }

/-- Match record produced for a request against a donor
(MatchingService._create_request_match_info). -/
structure RequestMatchInfo where
  request : BloodRequest
  match_score : ℤ
  urgency_priority : Int
  blood_compatible : Bool
  city_match : Bool
  exact_blood_match : Bool
deriving Repr, DecidableEq

/-- MatchingService._create_request_match_info. -/
def create_request_match_info (r : BloodRequest) (d : Donor) (city_exact_match : Bool) :
    Except String RequestMatchInfo :=
  match calculate_match_score d r city_exact_match with
  | .error e => .error e
  | .ok score =>
    let prio := get_urgency_priority r.urgency
    match is_blood_compatible d.blood_group r.blood_group with
    | .error e => .error e
    | .ok compatible =>
      .ok { request := r
            match_score := score
            urgency_priority := prio
            blood_compatible := compatible
            city_match := str_lower d.city == str_lower r.city
            exact_blood_match := d.blood_group == r.blood_group }

/-- Descending comparison on donor match records used by
`find_matching_donors`' `sort(key=match_score, reverse=True)`: record `a`
may come before record `b` when its score is at least `b`'s. -/
def donorScoreGE (a b : MatchInfo) : Prop :=
  b.match_score ≤ a.match_score

instance : DecidableRel donorScoreGE :=
  fun a b => inferInstanceAs (Decidable (b.match_score ≤ a.match_score))

instance : IsTotal MatchInfo donorScoreGE :=
  ⟨fun a b => le_total b.match_score a.match_score⟩

instance : IsTrans MatchInfo donorScoreGE :=
  ⟨fun _ _ _ hab hbc => le_trans hbc hab⟩

/-- Descending lexicographic comparison on `(urgency_priority,
match_score)` used by `find_requests_for_donor`'s
`sort(key=(urgency_priority, match_score), reverse=True)` (Python compares
tuples lexicographically). -/
def requestKeyGE (a b : RequestMatchInfo) : Prop :=
  b.urgency_priority < a.urgency_priority ∨
    (a.urgency_priority = b.urgency_priority ∧ b.match_score ≤ a.match_score)

instance : DecidableRel requestKeyGE := fun a b =>
  inferInstanceAs (Decidable (_ ∨ (_ ∧ _)))

instance : IsTotal RequestMatchInfo requestKeyGE := by
  constructor
  intro a b
  rcases lt_trichotomy a.urgency_priority b.urgency_priority with h | h | h
  · exact Or.inr (Or.inl h)
  · rcases le_total b.match_score a.match_score with hs | hs
    · exact Or.inl (Or.inr ⟨h, hs⟩)
    · exact Or.inr (Or.inr ⟨h.symm, hs⟩)
  · exact Or.inl (Or.inl h)

instance : IsTrans RequestMatchInfo requestKeyGE := by
  constructor
  intro a b c hab hbc
  rcases hab with h1 | ⟨h1, hs1⟩ <;> rcases hbc with h2 | ⟨h2, hs2⟩
  · exact Or.inl (lt_trans h2 h1)
  · exact Or.inl (h2 ▸ h1)
  · exact Or.inl (h1 ▸ h2)
  · exact Or.inr ⟨h1.trans h2, hs2.trans hs1⟩

/-- Truncation step shared by both finders.  Python's `if limit:` treats
both `None` and `0` as "no truncation"; `xs[:limit]` with a positive bound
keeps the first `limit` entries and with a negative bound keeps the first
`len(xs) + limit` entries (clamped at zero), dropping from the end. -/
def apply_limit (limit : Option Int) (xs : List α) : List α :=
  match limit with
  | none => xs
  | some l =>
    if l == 0 then xs
    else if 0 ≤ l then xs.take l.toNat
    else xs.take ((xs.length : Int) + l).toNat

/-- Sequential effectful map over a list: the Python loops that build one
match record per fetched row, aborting on the first raised error. -/
def mapME (f : α → Except String β) : List α → Except String (List β)
  | [] => .ok []
  | a :: l =>
    match f a with
    | .error e => .error e
    | .ok b =>
      match mapME f l with
      | .error e => .error e
      | .ok rest => .ok (b :: rest)

/-- Sequential effectful filter: the list comprehension guarded by
`is_blood_compatible`, whose predicate may raise. -/
def filterME (p : α → Except String Bool) : List α → Except String (List α)
  | [] => .ok []
  | a :: l =>
    match p a with
    | .error e => .error e
    | .ok b =>
      match filterME p l with
      | .error e => .error e
      | .ok rest => .ok (if b then a :: rest else rest)

/-- Loop body of `find_requests_for_donor`: per request, re-check
compatibility and build a match record when it holds. -/
def build_request_matches (d : Donor) (city_exact_match : Bool) :
    List BloodRequest → Except String (List RequestMatchInfo)
  | [] => .ok []
  | r :: rest =>
    match is_blood_compatible d.blood_group r.blood_group with
    | .error e => .error e
    | .ok c =>
      if c then
        match create_request_match_info r d city_exact_match with
        | .error e => .error e
        | .ok mi =>
          match build_request_matches d city_exact_match rest with
          | .error e => .error e
          | .ok others => .ok (mi :: others)
      else
        build_request_matches d city_exact_match rest

/-- The generic `except Exception` handler of the service methods:
passes results through and prefixes raised messages with
`Unexpected error: `. -/
def wrap_unexpected (e : Except String α) : Except String α :=
  match e with
  | .ok a => .ok a
  | .error m => .error ("Unexpected error: " ++ m)

/-- MatchingService.find_matching_donors: fetch donors per compatible
blood group (city-filtered when asked), build a record per donor, sort by
score descending, truncate. -/
def find_matching_donors (s : Store) (r : BloodRequest) (city_exact_match : Bool)
    (limit : Option Int) : Except String (List MatchInfo) :=
  wrap_unexpected (
    match get_compatible_blood_groups r.blood_group with
    | .error e => .error e
    | .ok compatible_groups =>
      let fetched := compatible_groups.flatMap (fun bg =>
        if city_exact_match then search_by_blood_group_and_city s bg r.city
        else search_by_blood_group s bg)
      match mapME (fun d => create_match_info d r city_exact_match) fetched with
      | .error e => .error e
      | .ok matching => .ok (apply_limit limit (List.insertionSort donorScoreGE matching)))

/-- MatchingService.find_matching_donors_by_request_id: validate the id,
resolve the request, return `[]` for a non-Active request, else delegate.
Both the directly raised errors and any error of the delegate are
re-wrapped by the method's generic handler. -/
def find_matching_donors_by_request_id (s : Store) (request_id : Int)
    (city_exact_match : Bool) (limit : Option Int) : Except String (List MatchInfo) :=
  wrap_unexpected (
    if request_id ≤ 0 then
      .error "Blood request ID must be a positive integer"
    else
      match request_get_by_id s request_id with
      | none => .error ("Blood request with ID " ++ toString request_id ++ " not found")
      | some r =>
        if r.status != "Active" then .ok []
        else find_matching_donors s r city_exact_match limit)

/-- MatchingService.find_requests_for_donor: fetch candidate requests
(store-filtered by the donor's own group and city in exact mode, else all
requests filtered in memory by compatibility), drop non-Active ones when
asked, build records, sort by the composite key descending, truncate. -/
def find_requests_for_donor (s : Store) (d : Donor) (city_exact_match active_only : Bool)
    (limit : Option Int) : Except String (List RequestMatchInfo) :=
  wrap_unexpected (
    match (if city_exact_match then
        .ok (get_requests_by_blood_group_and_city s d.blood_group d.city)
      else
        filterME (fun r => is_blood_compatible d.blood_group r.blood_group)
          (request_get_all s)) with
    | .error e => .error e
    | .ok fetched =>
      let requests := if active_only then fetched.filter (fun r => r.status == "Active")
        else fetched
      match build_request_matches d city_exact_match requests with
      | .error e => .error e
      | .ok matching => .ok (apply_limit limit (List.insertionSort requestKeyGE matching)))

/-- MatchingService.find_requests_for_donor_by_id: validate the id,
resolve the donor, delegate. -/
def find_requests_for_donor_by_id (s : Store) (donor_id : Int)
    (city_exact_match active_only : Bool) (limit : Option Int) :
    Except String (List RequestMatchInfo) :=
  wrap_unexpected (
    if donor_id ≤ 0 then
      .error "Donor ID must be a positive integer"
    else
      match donor_get_by_id s donor_id with
      | none => .error ("Donor with ID " ++ toString donor_id ++ " not found")
      | some d => find_requests_for_donor s d city_exact_match active_only limit)

/-- Statistics produced by MatchingService.get_matching_statistics.  The
two breakdown lists carry `(key, first count, second count)` rows:
`(blood group, active_requests, available_donors)` and
`(urgency, total_requests, requests_with_matches)`.  The `last_updated`
wall-clock field is not modelled. -/
structure Statistics where
  total_active_requests : Nat
  total_donors : Nat
  requests_with_potential_matches : Nat
  total_potential_matches : Nat
  match_rate : ℚ
  blood_group_breakdown : List (String × Nat × Nat)
  urgency_breakdown : List (String × Nat × Nat)
deriving Repr, DecidableEq

/-- Accumulation loop of get_matching_statistics over the active
requests: per request, count it when it has at least one potential match
(first component) and add its match count (second component). -/
def count_matches (s : Store) : List BloodRequest → Nat × Nat → Except String (Nat × Nat)
  | [], acc => .ok acc
  | request :: rest, acc =>
    match find_matching_donors s request false none with
    | .error e => .error e
    | .ok found =>
      if found.isEmpty then count_matches s rest acc
      else count_matches s rest (acc.1 + 1, acc.2 + found.length)

/-- Per-urgency loop of get_matching_statistics: count the requests with
at least one potential match. -/
def count_with_matches (s : Store) : List BloodRequest → Nat → Except String Nat
  | [], n => .ok n
  | request :: rest, n =>
    match find_matching_donors s request false none with
    | .error e => .error e
    | .ok found =>
      if found.isEmpty then count_with_matches s rest n
      else count_with_matches s rest (n + 1)

/-- One row of the urgency breakdown of get_matching_statistics. -/
def urgency_row (s : Store) (active_requests : List BloodRequest) (urgency : String) :
    Except String (String × Nat × Nat) :=
  let urgent_requests := active_requests.filter (fun r => r.urgency == urgency)
  match count_with_matches s urgent_requests 0 with
  | .error e => .error e
  | .ok cnt => .ok (urgency, urgent_requests.length, cnt)

/-- MatchingService.get_matching_statistics. -/
def get_matching_statistics (s : Store) : Except String Statistics :=
  wrap_unexpected (
    let active_requests := get_active_requests s
    let all_donors := s.donors
    let total_active_requests := active_requests.length
    let total_donors := all_donors.length
    match count_matches s active_requests (0, 0) with
    | .error e => .error e
    | .ok counts =>
      let blood_group_breakdown := canonical_blood_groups.map (fun bg =>
        (bg, (active_requests.filter (fun r => r.blood_group == bg)).length,
          (all_donors.filter (fun d => d.blood_group == bg)).length))
      match mapME (urgency_row s active_requests) ["Critical", "High", "Medium", "Low"] with
      | .error e => .error e
      | .ok urgency_breakdown =>
        .ok { total_active_requests := total_active_requests
              total_donors := total_donors
              requests_with_potential_matches := counts.1
              total_potential_matches := counts.2
              match_rate := if total_active_requests > 0 then
                (counts.1 : ℚ) / (total_active_requests : ℚ) * 100 else 0
              blood_group_breakdown := blood_group_breakdown
              urgency_breakdown := urgency_breakdown })

/-- Demo donor: universal donor in Delhi, used by the concrete witness
theorems below. -/
def demo_donor1 : Donor :=
  { id := 1, name := "Asha", blood_group := "O-", city := "Delhi",
    contact_number := "9999999999", email := none }

/-- Demo donor: A+ donor in Mumbai. -/
def demo_donor2 : Donor :=
  { id := 2, name := "Ravi", blood_group := "A+", city := "Mumbai",
    contact_number := "8888888888", email := none }

/-- Demo request: Active, A+, Delhi, Critical. -/
def demo_request1 : BloodRequest :=
  { id := 1, patient_name := "Meera", blood_group := "A+", city := "Delhi",
    urgency := "Critical", hospital_name := none, contact_number := "7777777777",
    status := "Active" }

/-- Demo request: Active, O-, Delhi, Low. -/
def demo_request2 : BloodRequest :=
  { id := 2, patient_name := "Vikram", blood_group := "O-", city := "Delhi",
    urgency := "Low", hospital_name := none, contact_number := "6666666666",
    status := "Active" }

/-- Demo request: Fulfilled, A+, Delhi, High — it has compatible donors in
`demo_store` but must never be matched. -/
def demo_request3 : BloodRequest :=
  { id := 3, patient_name := "Sameer", blood_group := "A+", city := "Delhi",
    urgency := "High", hospital_name := none, contact_number := "5555555555",
    status := "Fulfilled" }

/-- Demo store holding the donors and requests above. -/
def demo_store : Store :=
  { donors := [demo_donor1, demo_donor2],
    requests := [demo_request1, demo_request2, demo_request3] }

/-- Empty store, for the statistics witness. -/
def empty_store : Store :=
  { donors := [], requests := [] }

/-- Match record of `demo_donor1` against `demo_request1`: compatible,
same city, not the same group, Critical request. -/
def demo_match1 : MatchInfo :=
  { donor := demo_donor1, match_score := 80, blood_compatible := true,
    city_match := true, exact_blood_match := false }

/-- Match record of `demo_donor2` against `demo_request1`: compatible and
exact group, different city, Critical request. -/
def demo_match2 : MatchInfo :=
  { donor := demo_donor2, match_score := 70, blood_compatible := true,
    city_match := false, exact_blood_match := true }

/-- Match record of `demo_request1` against `demo_donor1`. -/
def demo_request_match1 : RequestMatchInfo :=
  { request := demo_request1, match_score := 80, urgency_priority := 4,
    blood_compatible := true, city_match := true, exact_blood_match := false }

/-- Match record of `demo_request2` against `demo_donor1`: its score 91
beats the 80 above, but its Low urgency ranks it second. -/
def demo_request_match2 : RequestMatchInfo :=
  { request := demo_request2, match_score := 91, urgency_priority := 1,
    blood_compatible := true, city_match := true, exact_blood_match := true }

/-! Helper lemmas about the building blocks, shared by the claim
theorems. -/

theorem wrap_unexpected_eq_ok {α : Type} {e : Except String α} {l : α} :
    wrap_unexpected e = .ok l ↔ e = .ok l := by
  cases e <;> simp [wrap_unexpected]

theorem apply_limit_eq_take {α : Type} (limit : Option Int) (xs : List α) :
    ∃ k, apply_limit limit xs = xs.take k := by
  match limit with
  | none => exact ⟨xs.length, (List.take_length xs).symm⟩
  | some l =>
    by_cases h0 : l == 0
    · exact ⟨xs.length, by simp [apply_limit, h0, List.take_length]⟩
    · by_cases hpos : (0 : Int) ≤ l
      · exact ⟨l.toNat, by simp [apply_limit, h0, hpos]⟩
      · exact ⟨((xs.length : Int) + l).toNat, by simp [apply_limit, h0, hpos]⟩

theorem apply_limit_pairwise {α : Type} {rel : α → α → Prop} {xs : List α}
    (h : xs.Pairwise rel) (limit : Option Int) : (apply_limit limit xs).Pairwise rel := by
  obtain ⟨k, hk⟩ := apply_limit_eq_take limit xs
  rw [hk]
  exact h.sublist (List.take_sublist k xs)

theorem mem_of_mem_apply_limit {α : Type} {limit : Option Int} {xs : List α} {a : α}
    (h : a ∈ apply_limit limit xs) : a ∈ xs := by
  obtain ⟨k, hk⟩ := apply_limit_eq_take limit xs
  rw [hk] at h
  exact (List.take_sublist k xs).subset h

theorem apply_limit_zero {α : Type} (xs : List α) : apply_limit (some 0) xs = xs := by
  simp [apply_limit]

theorem apply_limit_neg {α : Type} {l : Int} (hneg : l < 0) (xs : List α) :
    apply_limit (some l) xs = xs.take ((xs.length : Int) + l).toNat := by
  have h0 : ¬(l == 0) := by simp; omega
  have h1 : ¬((0 : Int) ≤ l) := by omega
  simp [apply_limit, h0, h1]

theorem mapME_ok_mem {α β : Type} {f : α → Except String β} :
    ∀ {xs : List α} {ys : List β}, mapME f xs = .ok ys → ∀ {y}, y ∈ ys →
      ∃ x ∈ xs, f x = .ok y := by
  intro xs
  induction xs with
  | nil =>
    intro ys h y hy
    simp [mapME] at h
    subst h
    simp at hy
  | cons a l ih =>
    intro ys h y hy
    unfold mapME at h
    cases hfa : f a with
    | error e => rw [hfa] at h; simp at h
    | ok b =>
      rw [hfa] at h
      cases hrest : mapME f l with
      | error e => rw [hrest] at h; simp at h
      | ok rest =>
        rw [hrest] at h
        simp at h
        subst h
        rcases List.mem_cons.1 hy with rfl | hmem
        · exact ⟨a, List.mem_cons_self a l, hfa⟩
        · obtain ⟨x, hx, hfx⟩ := ih hrest hmem
          exact ⟨x, List.mem_cons_of_mem a hx, hfx⟩

theorem urgency_bonus_nonneg (u : String) : 0 ≤ urgency_bonus u := by
  unfold urgency_bonus
  split <;> norm_num
  split <;> norm_num
  split <;> norm_num
  split <;> norm_num

/-- C2: for every canonical recipient group, get_compatible_blood_groups
returns exactly the set given by the canonical table; each group is in
its own compatible set, AB+'s set has cardinality 8 and O-'s set has
cardinality 1. -/
theorem compatibility_table_is_canonical :
    (get_compatible_blood_groups "A+" = .ok ["A+", "A-", "O+", "O-"] ∧
     get_compatible_blood_groups "A-" = .ok ["A-", "O-"] ∧
     get_compatible_blood_groups "B+" = .ok ["B+", "B-", "O+", "O-"] ∧
     get_compatible_blood_groups "B-" = .ok ["B-", "O-"] ∧
     get_compatible_blood_groups "AB+" =
       .ok ["A+", "A-", "B+", "B-", "AB+", "AB-", "O+", "O-"] ∧
     get_compatible_blood_groups "AB-" = .ok ["A-", "B-", "AB-", "O-"] ∧
     get_compatible_blood_groups "O+" = .ok ["O+", "O-"] ∧
     get_compatible_blood_groups "O-" = .ok ["O-"]) ∧
    (∀ R ∈ canonical_blood_groups,
      ∃ gs, get_compatible_blood_groups R = .ok gs ∧ R ∈ gs ∧ gs.Nodup) ∧
    (∃ gs, get_compatible_blood_groups "AB+" = .ok gs ∧ gs.Nodup ∧ gs.length = 8) ∧
    (∃ gs, get_compatible_blood_groups "O-" = .ok gs ∧ gs.Nodup ∧ gs.length = 1) := by
  refine ⟨⟨rfl, rfl, rfl, rfl, rfl, rfl, rfl, rfl⟩, ?_, ⟨_, rfl, by decide, rfl⟩,
    ⟨_, rfl, by decide, rfl⟩⟩
  intro R hR
  fin_cases hR <;> exact ⟨_, rfl, by decide, by decide⟩

/-- C2 witness: the self-compatibility part instantiated at recipient
group A+. -/
theorem compatibility_table_is_canonical_witness :
    ("A+" ∈ canonical_blood_groups) ∧
    ∃ gs, get_compatible_blood_groups "A+" = .ok gs ∧ "A+" ∈ gs ∧ gs.Nodup :=
  ⟨by decide, compatibility_table_is_canonical.2.1 "A+" (by decide)⟩

/-- C7: for every donor group string D and every canonical recipient
group R, is_blood_compatible D R succeeds and returns true exactly when D
is a member of the set returned by get_compatible_blood_groups R. -/
theorem is_blood_compatible_iff_member (D R : String) (hR : R ∈ canonical_blood_groups) :
    ∃ gs, get_compatible_blood_groups R = .ok gs ∧
      is_blood_compatible D R = .ok (gs.contains D) ∧
      ((gs.contains D) = true ↔ D ∈ gs) := by
  fin_cases hR <;>
    exact ⟨_, rfl, rfl, by simp⟩

/-- C7 witness: the universal donor O- is compatible with recipient group
A+, matching membership in its table row. -/
theorem is_blood_compatible_iff_member_witness :
    ("A+" ∈ canonical_blood_groups) ∧
    ∃ gs, get_compatible_blood_groups "A+" = .ok gs ∧
      is_blood_compatible "O-" "A+" = .ok (gs.contains "O-") ∧
      ((gs.contains "O-") = true ↔ "O-" ∈ gs) :=
  ⟨by decide, is_blood_compatible_iff_member "O-" "A+" (by decide)⟩

/-- C8: calculate_match_score is insensitive to its boolean
city_exact_match parameter — the two runs differing only in that flag
return identical results (the parameter is accepted but never read). -/
theorem calculate_match_score_mode_insensitive (d : Donor) (r : BloodRequest) :
    calculate_match_score d r true = calculate_match_score d r false := rfl

/-- C1: for every donor and request whose blood group is canonical (the
model validates the enum before a request reaches the service), and
either value of the mode flag, calculate_match_score returns
min(s, 100) where s adds 40 for compatibility (membership of the donor
group in the recipient's table row), 20 for exact group equality, 30 for
case-insensitive city equality and 10/7/4/1 for urgency
Critical/High/Medium/Low (0 otherwise); the result always lies in
[0, 100]. -/
theorem calculate_match_score_is_capped_sum (d : Donor) (r : BloodRequest) (mode : Bool)
    (gs : List String) (h : get_compatible_blood_groups r.blood_group = .ok gs) :
    calculate_match_score d r mode =
      .ok (min ((if d.blood_group ∈ gs then (40 : ℤ) else 0) +
        (if d.blood_group = r.blood_group then 20 else 0) +
        (if str_lower d.city = str_lower r.city then 30 else 0) +
        (if r.urgency = "Critical" then 10
         else if r.urgency = "High" then 7
         else if r.urgency = "Medium" then 4
         else if r.urgency = "Low" then 1 else 0)) 100) ∧
    ∀ q, calculate_match_score d r mode = .ok q → 0 ≤ q ∧ q ≤ 100 := by
  have hbc : is_blood_compatible d.blood_group r.blood_group =
      .ok (gs.contains d.blood_group) := by
    unfold is_blood_compatible
    rw [h]
  have hmain : calculate_match_score d r mode =
      .ok (min ((if d.blood_group ∈ gs then (40 : ℤ) else 0) +
        (if d.blood_group = r.blood_group then 20 else 0) +
        (if str_lower d.city = str_lower r.city then 30 else 0) +
        (if r.urgency = "Critical" then 10
         else if r.urgency = "High" then 7
         else if r.urgency = "Medium" then 4
         else if r.urgency = "Low" then 1 else 0)) 100) := by
    unfold calculate_match_score
    rw [hbc]
    simp only [urgency_bonus, beq_iff_eq, List.elem_eq_mem, decide_eq_true_eq]
  refine ⟨hmain, fun q hq => ?_⟩
  rw [hmain] at hq
  have hq2 : q = min ((if d.blood_group ∈ gs then (40 : ℤ) else 0) +
      (if d.blood_group = r.blood_group then 20 else 0) +
      (if str_lower d.city = str_lower r.city then 30 else 0) +
      (if r.urgency = "Critical" then 10
       else if r.urgency = "High" then 7
       else if r.urgency = "Medium" then 4
       else if r.urgency = "Low" then 1 else 0)) 100 := by
    injection hq.symm
  subst hq2
  constructor
  · apply le_min
    · split_ifs <;> norm_num
    · norm_num
  · exact min_le_right _ _

/-- C1 witness: the worked example of the spec — an O- donor in Delhi
against an Active A+ Critical request in Delhi scores
40 + 0 + 30 + 10 = 80, inside [0, 100]. -/
theorem calculate_match_score_is_capped_sum_witness :
    get_compatible_blood_groups demo_request1.blood_group = .ok ["A+", "A-", "O+", "O-"] ∧
    calculate_match_score demo_donor1 demo_request1 true = .ok 80 ∧
    (0 : ℤ) ≤ 80 ∧ (80 : ℤ) ≤ 100 := by
  have h : get_compatible_blood_groups demo_request1.blood_group =
      .ok ["A+", "A-", "O+", "O-"] := rfl
  have hmain := calculate_match_score_is_capped_sum demo_donor1 demo_request1 true _ h
  exact ⟨h, by decide, hmain.2 80 (by decide)⟩

/-- C3: an identifier that does not resolve to a stored record makes the
by-id entry points fail with an error surfaced to the caller (never an
empty result): find_matching_donors_by_request_id for an unresolved
request id, find_requests_for_donor_by_id for an unresolved donor id. -/
theorem unresolved_id_fails (s : Store) (request_id donor_id : Int)
    (cem ao : Bool) (lim : Option Int)
    (hreq : request_get_by_id s request_id = none)
    (hdon : donor_get_by_id s donor_id = none) :
    (∃ e, find_matching_donors_by_request_id s request_id cem lim = .error e) ∧
    (∃ e, find_requests_for_donor_by_id s donor_id cem ao lim = .error e) := by
  constructor
  · unfold find_matching_donors_by_request_id
    by_cases hid : request_id ≤ 0
    · exact ⟨"Unexpected error: Blood request ID must be a positive integer",
        by simp [hid, wrap_unexpected]⟩
    · exact ⟨"Unexpected error: " ++
        ("Blood request with ID " ++ toString request_id ++ " not found"),
        by simp [hid, hreq, wrap_unexpected]⟩
  · unfold find_requests_for_donor_by_id
    by_cases hid : donor_id ≤ 0
    · exact ⟨"Unexpected error: Donor ID must be a positive integer",
        by simp [hid, wrap_unexpected]⟩
    · exact ⟨"Unexpected error: " ++
        ("Donor with ID " ++ toString donor_id ++ " not found"),
        by simp [hid, hdon, wrap_unexpected]⟩

/-- C3 witness: ids 99 and 98 resolve to nothing in the demo store and
both finders fail. -/
theorem unresolved_id_fails_witness :
    (request_get_by_id demo_store 99 = none ∧ donor_get_by_id demo_store 98 = none) ∧
    (∃ e, find_matching_donors_by_request_id demo_store 99 true none = .error e) ∧
    (∃ e, find_requests_for_donor_by_id demo_store 98 true true none = .error e) :=
  ⟨⟨by decide, by decide⟩,
    unresolved_id_fails demo_store 99 98 true true none (by decide) (by decide)⟩

/-- C4: a stored request whose status is not Active is never matched —
find_matching_donors_by_request_id returns the empty list without error,
whatever donors the store holds. -/
theorem non_active_request_yields_empty (s : Store) (request_id : Int) (cem : Bool)
    (lim : Option Int) (r : BloodRequest) (hpos : 0 < request_id)
    (hget : request_get_by_id s request_id = some r)
    (hstatus : r.status ≠ "Active") :
    find_matching_donors_by_request_id s request_id cem lim = .ok [] := by
  have hid : ¬(request_id ≤ 0) := by omega
  have hbne : (r.status != "Active") = true := by
    simp [bne_iff_ne, hstatus]
  unfold find_matching_donors_by_request_id
  simp [hid, hget, hbne, wrap_unexpected]

/-- C4 witness: request 3 of the demo store is Fulfilled and has two
blood-compatible donors in store, yet matching it yields the empty
list. -/
theorem non_active_request_yields_empty_witness :
    (request_get_by_id demo_store 3 = some demo_request3 ∧
      demo_request3.status = "Fulfilled" ∧
      search_by_blood_group demo_store "O-" ≠ [] ∧
      search_by_blood_group demo_store "A+" ≠ []) ∧
    find_matching_donors_by_request_id demo_store 3 true none = .ok [] :=
  ⟨⟨by decide, by decide, by decide, by decide⟩,
    non_active_request_yields_empty demo_store 3 true none demo_request3
      (by decide) (by decide) (by decide)⟩

/-! Inversion and factoring lemmas for the two finders. -/

theorem find_requests_for_donor_ok_shape {s : Store} {d : Donor} {cem ao : Bool}
    {lim : Option Int} {l : List RequestMatchInfo}
    (h : find_requests_for_donor s d cem ao lim = .ok l) :
    ∃ matching, l = apply_limit lim (List.insertionSort requestKeyGE matching) := by
  unfold find_requests_for_donor at h
  rw [wrap_unexpected_eq_ok] at h
  split at h
  · exact absurd h (by simp)
  · dsimp only at h
    rename_i fetched hf
    cases hm : build_request_matches d cem
        (if ao then fetched.filter (fun r => r.status == "Active") else fetched) with
    | error e => rw [hm] at h; exact absurd h (by simp)
    | ok matching =>
      rw [hm] at h
      refine ⟨matching, ?_⟩
      injection h with h
      exact h.symm

theorem find_matching_donors_ok_shape {s : Store} {r : BloodRequest} {cem : Bool}
    {lim : Option Int} {l : List MatchInfo}
    (h : find_matching_donors s r cem lim = .ok l) :
    ∃ gs matching,
      get_compatible_blood_groups r.blood_group = .ok gs ∧
      mapME (fun dn => create_match_info dn r cem)
        (gs.flatMap (fun bg =>
          if cem then search_by_blood_group_and_city s bg r.city
          else search_by_blood_group s bg)) = .ok matching ∧
      l = apply_limit lim (List.insertionSort donorScoreGE matching) := by
  unfold find_matching_donors at h
  rw [wrap_unexpected_eq_ok] at h
  split at h
  · exact absurd h (by simp)
  · rename_i gs hg
    dsimp only at h
    cases hm : mapME (fun dn => create_match_info dn r cem)
        (gs.flatMap (fun bg =>
          if cem then search_by_blood_group_and_city s bg r.city
          else search_by_blood_group s bg)) with
    | error e => rw [hm] at h; exact absurd h (by simp)
    | ok matching =>
      rw [hm] at h
      refine ⟨gs, matching, hg, hm, ?_⟩
      injection h with h
      exact h.symm

theorem find_matching_donors_factor (s : Store) (r : BloodRequest) (cem : Bool)
    (lim : Option Int) :
    find_matching_donors s r cem lim =
      (find_matching_donors s r cem none).map (apply_limit lim) := by
  unfold find_matching_donors
  cases hg : get_compatible_blood_groups r.blood_group with
  | error e => rfl
  | ok gs =>
    dsimp only
    cases hm : mapME (fun dn => create_match_info dn r cem)
        (gs.flatMap (fun bg =>
          if cem then search_by_blood_group_and_city s bg r.city
          else search_by_blood_group s bg)) with
    | error e => rfl
    | ok matching => rfl

theorem find_requests_for_donor_factor (s : Store) (d : Donor) (cem ao : Bool)
    (lim : Option Int) :
    find_requests_for_donor s d cem ao lim =
      (find_requests_for_donor s d cem ao none).map (apply_limit lim) := by
  unfold find_requests_for_donor
  cases hf : (if cem then
      Except.ok (get_requests_by_blood_group_and_city s d.blood_group d.city)
    else
      filterME (fun r => is_blood_compatible d.blood_group r.blood_group)
        (request_get_all s)) with
  | error e => rfl
  | ok fetched =>
    dsimp only
    cases hm : build_request_matches d cem
        (if ao then fetched.filter (fun r => r.status == "Active") else fetched) with
    | error e => rfl
    | ok matching => rfl

/-- C5: every list returned by find_requests_for_donor is sorted in
descending order of the composite key (urgency_priority, match_score);
consequently a record with lower urgency priority never precedes one with
higher urgency priority, whatever the scores. -/
theorem find_requests_for_donor_sorted (s : Store) (d : Donor) (cem ao : Bool)
    (lim : Option Int) (l : List RequestMatchInfo)
    (h : find_requests_for_donor s d cem ao lim = .ok l) :
    l.Pairwise requestKeyGE ∧
    l.Pairwise (fun a b => b.urgency_priority ≤ a.urgency_priority) := by
  obtain ⟨matching, hl⟩ := find_requests_for_donor_ok_shape h
  subst hl
  have hp : (List.insertionSort requestKeyGE matching).Pairwise requestKeyGE :=
    List.sorted_insertionSort requestKeyGE matching
  have hp2 := apply_limit_pairwise hp lim
  refine ⟨hp2, hp2.imp ?_⟩
  intro a b hab
  rcases hab with hlt | ⟨heq, _⟩
  · exact le_of_lt hlt
  · exact le_of_eq heq.symm

/-- C5 witness: for the demo store's O- donor, the Critical request with
score 80 is returned ahead of the Low request with score 91, and the
returned list is sorted by the composite key. -/
theorem find_requests_for_donor_sorted_witness :
    find_requests_for_donor demo_store demo_donor1 false true none =
      .ok [demo_request_match1, demo_request_match2] ∧
    List.Pairwise requestKeyGE [demo_request_match1, demo_request_match2] := by
  have h : find_requests_for_donor demo_store demo_donor1 false true none =
      .ok [demo_request_match1, demo_request_match2] := by decide
  exact ⟨h, (find_requests_for_donor_sorted demo_store demo_donor1 false true none _ h).1⟩

theorem calculate_match_score_components (dn : Donor) (r : BloodRequest) (cem : Bool)
    {gs : List String} (hg : get_compatible_blood_groups r.blood_group = .ok gs) :
    calculate_match_score dn r cem = .ok (min
      ((if gs.contains dn.blood_group then (40 : ℤ) else 0) +
       (if dn.blood_group == r.blood_group then 20 else 0) +
       (if str_lower dn.city == str_lower r.city then 30 else 0) +
       urgency_bonus r.urgency) 100) := by
  unfold calculate_match_score is_blood_compatible
  rw [hg]

theorem create_match_info_fields {dn : Donor} {r : BloodRequest} {cem : Bool}
    {gs : List String} (hg : get_compatible_blood_groups r.blood_group = .ok gs)
    (hcont : gs.contains dn.blood_group = true) {m : MatchInfo}
    (hc : create_match_info dn r cem = .ok m) :
    m.blood_compatible = true ∧ 40 ≤ m.match_score := by
  have hbc : is_blood_compatible dn.blood_group r.blood_group = .ok true := by
    unfold is_blood_compatible
    rw [hg]
    dsimp only
    rw [hcont]
  have hs := calculate_match_score_components dn r cem hg
  rw [hcont] at hs
  unfold create_match_info at hc
  rw [hs, hbc] at hc
  injection hc with hc
  subst hc
  refine ⟨rfl, ?_⟩
  show (40 : ℤ) ≤ min _ 100
  apply le_min
  · have h20 : (0 : ℤ) ≤ (if dn.blood_group == r.blood_group then 20 else 0) := by
      split <;> norm_num
    have h30 : (0 : ℤ) ≤ (if str_lower dn.city == str_lower r.city then 30 else 0) := by
      split <;> norm_num
    have hu := urgency_bonus_nonneg r.urgency
    simp only [if_true]
    linarith
  · norm_num

theorem find_matching_donors_records {s : Store} {r : BloodRequest} {cem : Bool}
    {lim : Option Int} {l : List MatchInfo}
    (h : find_matching_donors s r cem lim = .ok l) :
    ∀ m ∈ l, m.blood_compatible = true ∧ 40 ≤ m.match_score := by
  obtain ⟨gs, matching, hg, hm, hl⟩ := find_matching_donors_ok_shape h
  subst hl
  intro m hmem
  have hmem2 : m ∈ List.insertionSort donorScoreGE matching :=
    mem_of_mem_apply_limit hmem
  have hmem3 : m ∈ matching := (List.mem_insertionSort donorScoreGE).1 hmem2
  obtain ⟨dn, hdn, hcreate⟩ := mapME_ok_mem hm hmem3
  rw [List.mem_flatMap] at hdn
  obtain ⟨bg, hbg, hdn2⟩ := hdn
  have hdbg : dn.blood_group = bg := by
    split at hdn2 <;>
      simp only [search_by_blood_group, search_by_blood_group_and_city,
        List.mem_filter, Bool.and_eq_true, beq_iff_eq] at hdn2 <;>
      tauto
  have hcont : gs.contains dn.blood_group = true := by
    simp only [List.elem_eq_mem, decide_eq_true_eq]
    exact hdbg ▸ hbg
  exact create_match_info_fields hg hcont hcreate

/-- C9: every match record produced by find_matching_donors — and hence
by find_matching_donors_by_request_id — has blood_compatible true and
match score at least 40, because donors are only fetched for blood groups
drawn from the request's compatible set. -/
theorem match_records_always_compatible (s : Store) (r : BloodRequest) (cem : Bool)
    (lim : Option Int) (request_id : Int) (l l' : List MatchInfo) :
    (find_matching_donors s r cem lim = .ok l →
      ∀ m ∈ l, m.blood_compatible = true ∧ 40 ≤ m.match_score) ∧
    (find_matching_donors_by_request_id s request_id cem lim = .ok l' →
      ∀ m ∈ l', m.blood_compatible = true ∧ 40 ≤ m.match_score) := by
  refine ⟨fun h => find_matching_donors_records h, fun h => ?_⟩
  unfold find_matching_donors_by_request_id at h
  rw [wrap_unexpected_eq_ok] at h
  split at h
  · exact absurd h (by simp)
  · split at h
    · exact absurd h (by simp)
    · split at h
      · injection h with h
        subst h
        intro m hm
        exact absurd hm (by simp)
      · exact find_matching_donors_records h

/-- C9 witness: matching the Active demo request returns exactly one
record, which is blood compatible with score 80 ≥ 40. -/
theorem match_records_always_compatible_witness :
    find_matching_donors demo_store demo_request1 true none = .ok [demo_match1] ∧
    demo_match1.blood_compatible = true ∧ 40 ≤ demo_match1.match_score := by
  have h : find_matching_donors demo_store demo_request1 true none = .ok [demo_match1] := by
    decide
  exact ⟨h, (match_records_always_compatible demo_store demo_request1 true none 1
    [demo_match1] []).1 h demo_match1 (by simp)⟩

/-- C10: limit 0 performs no truncation at all (both finders treat it as
an absent limit), while a negative limit drops entries from the end of
the sorted list — the result is the prefix of length (length + limit),
not the top |limit| entries. -/
theorem limit_zero_and_negative_semantics (s : Store) (r : BloodRequest) (d : Donor)
    (cem ao : Bool) :
    (find_matching_donors s r cem (some 0) = find_matching_donors s r cem none) ∧
    (find_requests_for_donor s d cem ao (some 0) = find_requests_for_donor s d cem ao none) ∧
    (∀ lneg : Int, lneg < 0 → ∀ full, find_matching_donors s r cem none = .ok full →
      find_matching_donors s r cem (some lneg) =
        .ok (full.take ((full.length : Int) + lneg).toNat)) ∧
    (∀ lneg : Int, lneg < 0 → ∀ full, find_requests_for_donor s d cem ao none = .ok full →
      find_requests_for_donor s d cem ao (some lneg) =
        .ok (full.take ((full.length : Int) + lneg).toNat)) := by
  refine ⟨?_, ?_, ?_, ?_⟩
  · rw [find_matching_donors_factor s r cem (some 0)]
    cases hn : find_matching_donors s r cem none with
    | error e => rfl
    | ok full => simp [Except.map, apply_limit_zero]
  · rw [find_requests_for_donor_factor s d cem ao (some 0)]
    cases hn : find_requests_for_donor s d cem ao none with
    | error e => rfl
    | ok full => simp [Except.map, apply_limit_zero]
  · intro lneg hneg full hfull
    rw [find_matching_donors_factor s r cem (some lneg), hfull]
    simp [Except.map, apply_limit_neg hneg]
  · intro lneg hneg full hfull
    rw [find_requests_for_donor_factor s d cem ao (some lneg), hfull]
    simp [Except.map, apply_limit_neg hneg]

/-- C10 witness: with limit -1 on a two-record result, the finder keeps
the prefix of length 2 - 1 = 1 (the top-scored record survives here only
because truncation takes the leading prefix). -/
theorem limit_zero_and_negative_semantics_witness :
    (find_matching_donors demo_store demo_request1 false (some 0) =
      find_matching_donors demo_store demo_request1 false none) ∧
    find_matching_donors demo_store demo_request1 false none =
      .ok [demo_match1, demo_match2] ∧
    find_matching_donors demo_store demo_request1 false (some (-1)) =
      .ok ([demo_match1, demo_match2].take
        ((([demo_match1, demo_match2].length : Int) + (-1)).toNat)) := by
  have hmain := limit_zero_and_negative_semantics demo_store demo_request1 demo_donor1
    false false
  have hfull : find_matching_donors demo_store demo_request1 false none =
      .ok [demo_match1, demo_match2] := by decide
  exact ⟨hmain.1, hfull, hmain.2.2.1 (-1) (by decide) [demo_match1, demo_match2] hfull⟩

/-- C6: get_matching_statistics defines the match rate as
requests_with_matches / total_active_requests * 100 exactly when at least
one active request exists and as 0 when there are none, so the division
is guarded against a zero divisor. -/
theorem match_rate_guarded (s : Store) (st : Statistics)
    (h : get_matching_statistics s = .ok st) :
    (st.total_active_requests = 0 → st.match_rate = 0) ∧
    (0 < st.total_active_requests →
      st.match_rate = (st.requests_with_potential_matches : ℚ) /
        (st.total_active_requests : ℚ) * 100) := by
  unfold get_matching_statistics at h
  rw [wrap_unexpected_eq_ok] at h
  dsimp only at h
  split at h
  · exact absurd h (by simp)
  · rename_i counts hcounts
    split at h
    · exact absurd h (by simp)
    · rename_i rows hrows
      injection h with h
      subst h
      constructor
      · intro hzero
        simp only at hzero ⊢
        rw [if_neg (by omega)]
      · intro hpos
        simp only at hpos ⊢
        rw [if_pos (by omega)]

/-- C6 witness: on the empty store there are zero active requests and the
returned match rate is 0, with no division performed. -/
theorem match_rate_guarded_witness :
    (∃ st, get_matching_statistics empty_store = .ok st ∧
      st.total_active_requests = 0 ∧ st.match_rate = 0) := by
  have h : get_matching_statistics empty_store = .ok
      { total_active_requests := 0, total_donors := 0,
        requests_with_potential_matches := 0, total_potential_matches := 0,
        match_rate := 0,
        blood_group_breakdown := [("A+", 0, 0), ("A-", 0, 0), ("B+", 0, 0), ("B-", 0, 0),
          ("AB+", 0, 0), ("AB-", 0, 0), ("O+", 0, 0), ("O-", 0, 0)],
        urgency_breakdown := [("Critical", 0, 0), ("High", 0, 0), ("Medium", 0, 0),
          ("Low", 0, 0)] } := by decide
  exact ⟨_, h, rfl, (match_rate_guarded empty_store _ h).1 rfl⟩

end BloodDonation
